import Mathlib

/-!
Verification development for the WebRTC broadcast core of NanoKVM
(`server/service/stream/webrtc/manager.go`).

The Go code is shallowly embedded: Go `time.Duration` values are modelled as
integer nanosecond counts, the client registry (a Go map from websocket
handle to client) as an association list with unique keys, and the two
broadcast loops as functions from a per-tick environment (registry snapshot,
media-source read result, observed frame rate, per-client write outcomes) to
a tick result.  The atomic start/stop flag protocol is modelled as a state
machine over the linearized sequence of its atomic events.
-/

namespace NanoKVM

/-- Go `time.Second` in nanoseconds (`time.Duration` is an int64 count of ns). -/
def second : Int := 1000000000

/-- Go `time.Millisecond` in nanoseconds. -/
def millisecond : Int := 1000000

/-- pion `media.Sample` as used by `sendVideoStream`: payload bytes plus the
declared duration (`media.Sample{Data: data, Duration: duration}`). -/
structure Sample where
  data : List Nat
  duration : Int
deriving DecidableEq, Repr

/-- one registered peer (`Client` in types.go, not under src/): only its
identity matters for the manager's control flow, so it is reduced to the id
of its track. -/
structure Client where
  trackId : Nat
deriving DecidableEq, Repr

/-- the registry `m.clients : map[*websocket.Conn]*Client`; websocket handles
are opaque unique keys, modelled as naturals. -/
abbrev Registry := List (Nat × Client)

/-- `GetClientCount` (manager.go:42-47): `len(m.clients)`. -/
def getClientCount (reg : Registry) : Nat := reg.length

/-- `RemoveClient` (manager.go:34-40): `delete(m.clients, ws)` under the write
lock; Go `delete` removes the binding for `ws` when present and is a silent
no-op otherwise. -/
def removeClient (reg : Registry) (ws : Nat) : Registry :=
  reg.filter (fun p => p.1 != ws)

/-- `AddClient` (manager.go:24-32): `m.clients[ws] = client` under the write
lock; a Go map assignment overwrites an existing binding or appends a new
one. -/
def addClient (reg : Registry) (ws : Nat) (c : Client) : Registry :=
  if reg.any (fun p => p.1 == ws) then
    reg.map (fun p => if p.1 == ws then (ws, c) else p)
  else
    reg ++ [(ws, c)]

/-- manager flag state: the two `int32` atomics `videoSending` / `audioSending`
of `WebRTCManager`, together with the spec's instrumentation counters for the
number of currently active broadcast loops of each kind (a loop counts as
active from its successful compare-and-swap launch until its deferred
`StoreInt32(flag, 0)` runs). -/
structure WebRTCManager where
  videoSending : Int
  audioSending : Int
  videoLoops : Nat
  audioLoops : Nat
deriving DecidableEq, Repr

/-- `NewWebRTCManager` (manager.go:15-22): both flags start at 0, no loop runs. -/
def newWebRTCManager : WebRTCManager :=
  { videoSending := 0, audioSending := 0, videoLoops := 0, audioLoops := 0 }

/-- `StartVideoStream` (manager.go:49-54): `CompareAndSwapInt32(&m.videoSending, 0, 1)`
and, exactly when the swap succeeds, `go m.sendVideoStream()`. -/
def startVideoStream (m : WebRTCManager) : WebRTCManager :=
  if m.videoSending = 0 then
    { m with videoSending := 1, videoLoops := m.videoLoops + 1 }
  else m

/-- `StartAudioStream` (manager.go:56-61): the same compare-and-swap protocol
on `m.audioSending`, launching `go m.sendAudioStream()` on success. -/
def startAudioStream (m : WebRTCManager) : WebRTCManager :=
  if m.audioSending = 0 then
    { m with audioSending := 1, audioLoops := m.audioLoops + 1 }
  else m

/-- the atomic flag events of the manager, in linearization order: a
`StartVideoStream`/`StartAudioStream` call (its compare-and-swap), or a loop
returning (its deferred `StoreInt32(flag, 0)`, manager.go:64 and 107). -/
inductive MgrEvent where
  | startVideo : MgrEvent
  | startAudio : MgrEvent
  | videoExit : MgrEvent
  | audioExit : MgrEvent
deriving DecidableEq, Repr

/-- one atomic step of the flag protocol.  An exit event can only be emitted
by a running loop, so it is the identity when no loop of that kind is active. -/
def mgrStep (m : WebRTCManager) : MgrEvent → WebRTCManager
  | MgrEvent.startVideo => startVideoStream m
  | MgrEvent.startAudio => startAudioStream m
  | MgrEvent.videoExit =>
      if m.videoLoops = 0 then m
      else { m with videoSending := 0, videoLoops := m.videoLoops - 1 }
  | MgrEvent.audioExit =>
      if m.audioLoops = 0 then m
      else { m with audioSending := 0, audioLoops := m.audioLoops - 1 }

/-- the manager state reached from `NewWebRTCManager` after a linearized
sequence of flag events. -/
def runMgr (evs : List MgrEvent) : WebRTCManager :=
  evs.foldl mgrStep newWebRTCManager

/-- per-kind flag invariant: the sending flag is set exactly while one loop of
that kind is active. -/
def KindInv (sending : Int) (loops : Nat) : Prop :=
  (sending = 0 ∧ loops = 0) ∨ (sending = 1 ∧ loops = 1)

/-- manager invariant, both kinds. -/
def MgrInv (m : WebRTCManager) : Prop :=
  KindInv m.videoSending m.videoLoops ∧ KindInv m.audioSending m.audioLoops

theorem mgrStep_inv {m : WebRTCManager} (e : MgrEvent) (h : MgrInv m) :
    MgrInv (mgrStep m e) := by
  obtain ⟨hv, ha⟩ := h
  cases e <;>
    simp only [mgrStep, startVideoStream, startAudioStream, MgrInv, KindInv] at * <;>
    rcases hv with ⟨h1, h2⟩ | ⟨h1, h2⟩ <;>
    rcases ha with ⟨h3, h4⟩ | ⟨h3, h4⟩ <;>
    simp [h1, h2, h3, h4]

theorem runMgr_inv (evs : List MgrEvent) : MgrInv (runMgr evs) := by
  have hgen : ∀ (l : List MgrEvent) (m : WebRTCManager),
      MgrInv m → MgrInv (l.foldl mgrStep m) := by
    intro l
    induction l with
    | nil => intro m hm; exact hm
    | cons e rest ih => intro m hm; exact ih _ (mgrStep_inv e hm)
  exact hgen evs newWebRTCManager (by simp [MgrInv, KindInv, newWebRTCManager])

/-- local state of `sendVideoStream` (manager.go:63-104): the frame rate `fps`
read from `screen.FPS` and the current ticker interval `duration` in
nanoseconds (`ticker.Reset(duration)` is modelled by updating this field). -/
structure VideoLoopState where
  fps : Int
  duration : Int
deriving DecidableEq, Repr

/-- environment observed by one iteration of `sendVideoStream`'s ticker loop:
the registry at the `GetClientCount` call and fan-out, the result of
`vision.ReadH264(screen.Width, screen.Height, screen.BitRate)`, the value of
`screen.FPS` at the rate check, and the outcome of each client's
`track.writeVideo` call (which the loop discards). -/
structure VideoTickEnv where
  clients : Registry
  readData : List Nat
  readResult : Int
  screenFPS : Int
  writeOk : Nat → Bool

/-- result of one iteration of the video loop body: either the loop returns
(`return` at manager.go:77-80), or it continues with a new local state after
performing the recorded track writes (handle, sample written, write outcome). -/
inductive VideoTickResult where
  | exit : VideoTickResult
  | cont (s : VideoLoopState) (writes : List (Nat × Sample × Bool)) : VideoTickResult
deriving DecidableEq, Repr

/-- one iteration of `sendVideoStream`'s `for range ticker.C` body
(manager.go:76-102): return when `GetClientCount() == 0`; `continue` without
writing when `result < 0 || len(data) == 0`; otherwise wrap the payload with
the current `duration` into a sample, write it to every registered client's
video track, and afterwards, when `screen.FPS != fps && screen.FPS != 0`,
set `fps`/`duration` to the new rate and `ticker.Reset(duration)`. -/
def videoTick (s : VideoLoopState) (e : VideoTickEnv) : VideoTickResult :=
  if getClientCount e.clients = 0 then
    VideoTickResult.exit
  else if e.readResult < 0 ∨ e.readData.length = 0 then
    VideoTickResult.cont s []
  else if e.screenFPS ≠ s.fps ∧ e.screenFPS ≠ 0 then
    VideoTickResult.cont
      { fps := e.screenFPS, duration := Int.tdiv second e.screenFPS }
      (e.clients.map (fun c => (c.1, { data := e.readData, duration := s.duration }, e.writeOk c.1)))
  else
    VideoTickResult.cont s
      (e.clients.map (fun c => (c.1, { data := e.readData, duration := s.duration }, e.writeOk c.1)))

/-- whether the tick made the loop return. -/
def VideoTickResult.isExit : VideoTickResult → Bool
  | VideoTickResult.exit => true
  | VideoTickResult.cont _ _ => false

/-- local state after the tick (`s` when the loop returned). -/
def VideoTickResult.nextState : VideoTickResult → VideoLoopState → VideoLoopState
  | VideoTickResult.exit, s => s
  | VideoTickResult.cont s _, _ => s

/-- the (handle, sample) pairs written by the tick, write outcomes stripped. -/
def VideoTickResult.writeTargets : VideoTickResult → List (Nat × Sample)
  | VideoTickResult.exit => []
  | VideoTickResult.cont _ w => w.map (fun x => (x.1, x.2.1))

/-- `sendVideoStream`'s loop run over a finite list of tick environments:
returns the accumulated writes, whether the loop returned within the list,
and the final local state. -/
def runVideoTicks (s : VideoLoopState) :
    List VideoTickEnv → List (Nat × Sample × Bool) × Bool × VideoLoopState
  | [] => ([], false, s)
  | e :: rest =>
    match videoTick s e with
    | VideoTickResult.exit => ([], true, s)
    | VideoTickResult.cont s1 w =>
      let r := runVideoTicks s1 rest
      (w ++ r.1, r.2.1, r.2.2)

theorem videoTick_exit_iff (s : VideoLoopState) (e : VideoTickEnv) :
    videoTick s e = VideoTickResult.exit ↔ getClientCount e.clients = 0 := by
  unfold videoTick
  split_ifs <;> simp_all

theorem runVideoTicks_exits_iff (envs : List VideoTickEnv) :
    ∀ s : VideoLoopState,
      (runVideoTicks s envs).2.1 = true ↔ ∃ e ∈ envs, getClientCount e.clients = 0 := by
  induction envs with
  | nil => intro s; simp [runVideoTicks]
  | cons e rest ih =>
    intro s
    rcases hvt : videoTick s e with _ | ⟨s1, w⟩
    · have h0 : getClientCount e.clients = 0 := (videoTick_exit_iff s e).mp hvt
      simp [runVideoTicks, hvt, h0]
    · have h0 : getClientCount e.clients ≠ 0 := by
        intro hz
        rw [(videoTick_exit_iff s e).mpr hz] at hvt
        exact VideoTickResult.noConfusion hvt
      simp [runVideoTicks, hvt, ih s1, h0]

/-- the fixed audio cadence of `sendAudioStream` (manager.go:111):
`frameDuration := 20 * time.Millisecond`; it is never modified. -/
def frameDuration : Int := 20 * millisecond

/-- environment observed by one iteration of `sendAudioStream`'s ticker loop:
only the registry matters, since the body after the zero-client check is a
documented placeholder (audio capture is unimplemented and the entire
sample-construction and write block, manager.go:122-137, is commented out). -/
structure AudioTickEnv where
  clients : Registry
deriving DecidableEq, Repr

/-- result of one audio tick: return, or continue having performed the
recorded (handle, sample) track writes. -/
inductive AudioTickResult where
  | exit : AudioTickResult
  | cont (writes : List (Nat × Sample)) : AudioTickResult
deriving DecidableEq, Repr

/-- one iteration of `sendAudioStream`'s `for range ticker.C` body
(manager.go:115-137): return when `GetClientCount() == 0`; otherwise the body
is the unimplemented-capture placeholder and performs no writes. -/
def audioTick (e : AudioTickEnv) : AudioTickResult :=
  if getClientCount e.clients = 0 then AudioTickResult.exit
  else AudioTickResult.cont []

/-- `sendAudioStream`'s loop run over a finite list of tick environments:
accumulated writes and whether the loop returned within the list. -/
def runAudioTicks : List AudioTickEnv → List (Nat × Sample) × Bool
  | [] => ([], false)
  | e :: rest =>
    match audioTick e with
    | AudioTickResult.exit => ([], true)
    | AudioTickResult.cont w =>
      let r := runAudioTicks rest
      (w ++ r.1, r.2)

theorem audioTick_exit_iff (e : AudioTickEnv) :
    audioTick e = AudioTickResult.exit ↔ getClientCount e.clients = 0 := by
  unfold audioTick
  split_ifs <;> simp_all

theorem runAudioTicks_exits_iff (envs : List AudioTickEnv) :
    (runAudioTicks envs).2 = true ↔ ∃ e ∈ envs, getClientCount e.clients = 0 := by
  induction envs with
  | nil => simp [runAudioTicks]
  | cons e rest ih =>
    rcases hvt : audioTick e with _ | w
    · have h0 : getClientCount e.clients = 0 := (audioTick_exit_iff e).mp hvt
      simp [runAudioTicks, hvt, h0]
    · have h0 : getClientCount e.clients ≠ 0 := by
        intro hz
        rw [(audioTick_exit_iff e).mpr hz] at hvt
        exact AudioTickResult.noConfusion hvt
      simp [runAudioTicks, hvt, ih, h0]

/-- entry sequence of `sendVideoStream` (manager.go:66-73):
`fps := screen.FPS; duration := time.Second / time.Duration(fps);
ticker := time.NewTicker(duration)`.  The `int64` division panics when
`fps = 0`, and `time.NewTicker` panics when the computed interval is not
positive; both Go runtime panics are modelled as `none`.  There is no guard
on `fps` at entry — the `screen.FPS != 0` check guards only the mid-loop
update at manager.go:96-100. -/
def initVideoSetup (fps : Int) : Option VideoLoopState :=
  if fps = 0 then none
  else if Int.tdiv second fps ≤ 0 then none
  else some { fps := fps, duration := Int.tdiv second fps }

/-- registry-lock and registry-access events, in program order, as emitted by
the code paths of manager.go that touch `m.clients` or `m.mutex`. -/
inductive RegEvent where
  | rLock : RegEvent
  | rUnlock : RegEvent
  | wLock : RegEvent
  | wUnlock : RegEvent
  | readCount : RegEvent
  | iterClients : RegEvent
  | writeMap : RegEvent
deriving DecidableEq, Repr

/-- `GetClientCount` (manager.go:42-47): `m.mutex.RLock()`, `len(m.clients)`,
deferred `m.mutex.RUnlock()`. -/
def getClientCountEvents : List RegEvent :=
  [RegEvent.rLock, RegEvent.readCount, RegEvent.rUnlock]

/-- `AddClient` (manager.go:24-32): `m.mutex.Lock()`, map insert, `m.mutex.Unlock()`. -/
def addClientEvents : List RegEvent :=
  [RegEvent.wLock, RegEvent.writeMap, RegEvent.wUnlock]

/-- `RemoveClient` (manager.go:34-40): `m.mutex.Lock()`, map delete, `m.mutex.Unlock()`. -/
def removeClientEvents : List RegEvent :=
  [RegEvent.wLock, RegEvent.writeMap, RegEvent.wUnlock]

/-- registry events of one successful video tick (manager.go:76-95): the
`GetClientCount()` call, then the fan-out `for _, client := range m.clients`
at manager.go:92-94, which is performed with no lock or unlock operation
around it. -/
def videoTickRegEvents : List RegEvent :=
  getClientCountEvents ++ [RegEvent.iterClients]

/-- lock-depth bookkeeping: (read-lock depth, write-lock depth) after an event. -/
def depthStep : Nat × Nat → RegEvent → Nat × Nat
  | (r, w), RegEvent.rLock => (r + 1, w)
  | (r, w), RegEvent.rUnlock => (r - 1, w)
  | (r, w), RegEvent.wLock => (r, w + 1)
  | (r, w), RegEvent.wUnlock => (r, w - 1)
  | d, _ => d

/-- annotate each event with the lock depths in force when it executes. -/
def annotateDepths : Nat × Nat → List RegEvent → List (RegEvent × Nat × Nat)
  | _, [] => []
  | d, e :: rest => (e, d) :: annotateDepths (depthStep d e) rest

/-- lock depths in force at each registry iteration of an event trace. -/
def iterLockDepths (evs : List RegEvent) : List (Nat × Nat) :=
  (annotateDepths (0, 0) evs).filterMap
    (fun x => if x.1 = RegEvent.iterClients then some x.2 else none)

/-- C1: for every linearized sequence of flag events — `StartVideoStream` /
`StartAudioStream` compare-and-swaps (including ones racing each other; the
atomics make the events a linear sequence) and loop exits — at most one video
and at most one audio broadcast loop is active at any time; a start call made
while the kind's sending flag is already set is a no-op, and one made while
it is clear flips the flag via compare-and-swap and launches exactly one
background loop. -/
theorem startStream_at_most_one_loop :
    (∀ evs : List MgrEvent, (runMgr evs).videoLoops ≤ 1 ∧ (runMgr evs).audioLoops ≤ 1)
    ∧ (∀ m : WebRTCManager, m.videoSending ≠ 0 → startVideoStream m = m)
    ∧ (∀ m : WebRTCManager, m.audioSending ≠ 0 → startAudioStream m = m)
    ∧ (∀ m : WebRTCManager, m.videoSending = 0 →
        startVideoStream m = { m with videoSending := 1, videoLoops := m.videoLoops + 1 })
    ∧ (∀ m : WebRTCManager, m.audioSending = 0 →
        startAudioStream m = { m with audioSending := 1, audioLoops := m.audioLoops + 1 }) := by
  refine ⟨?_, ?_, ?_, ?_, ?_⟩
  · intro evs
    obtain ⟨hv, ha⟩ := runMgr_inv evs
    constructor
    · rcases hv with ⟨_, h2⟩ | ⟨_, h2⟩ <;> omega
    · rcases ha with ⟨_, h2⟩ | ⟨_, h2⟩ <;> omega
  · intro m hm; simp [startVideoStream, hm]
  · intro m hm; simp [startAudioStream, hm]
  · intro m hm; simp [startVideoStream, hm]
  · intro m hm; simp [startAudioStream, hm]

/-- C1 witness: two racing video starts leave one loop; a start on a set flag
is a no-op; a start on a clear flag flips it and launches one loop. -/
theorem startStream_at_most_one_loop_witness :
    (runMgr [MgrEvent.startVideo, MgrEvent.startVideo, MgrEvent.startAudio]).videoLoops ≤ 1
    ∧ startVideoStream { videoSending := 1, audioSending := 0, videoLoops := 1, audioLoops := 0 }
        = { videoSending := 1, audioSending := 0, videoLoops := 1, audioLoops := 0 }
    ∧ startAudioStream { videoSending := 0, audioSending := 1, videoLoops := 0, audioLoops := 1 }
        = { videoSending := 0, audioSending := 1, videoLoops := 0, audioLoops := 1 }
    ∧ startVideoStream { videoSending := 0, audioSending := 0, videoLoops := 0, audioLoops := 0 }
        = { videoSending := 1, audioSending := 0, videoLoops := 1, audioLoops := 0 }
    ∧ startAudioStream { videoSending := 0, audioSending := 0, videoLoops := 0, audioLoops := 0 }
        = { videoSending := 0, audioSending := 1, videoLoops := 0, audioLoops := 1 } :=
  ⟨(startStream_at_most_one_loop.1 _).1,
   startStream_at_most_one_loop.2.1 _ (by decide),
   startStream_at_most_one_loop.2.2.1 _ (by decide),
   startStream_at_most_one_loop.2.2.2.1 _ rfl,
   startStream_at_most_one_loop.2.2.2.2 _ rfl⟩

/-- C2: a running loop of either kind returns at the first tick that observes
a zero client count — and observing zero clients at a tick is the only
termination trigger — after which the deferred store clears its sending flag,
so a subsequent `StartVideoStream` / `StartAudioStream` spawns a fresh loop. -/
theorem broadcastLoop_zero_clients_termination :
    (∀ (s : VideoLoopState) (e : VideoTickEnv) (envs : List VideoTickEnv),
        getClientCount e.clients = 0 → runVideoTicks s (e :: envs) = ([], true, s))
    ∧ (∀ (s : VideoLoopState) (envs : List VideoTickEnv),
        (runVideoTicks s envs).2.1 = true ↔ ∃ e ∈ envs, getClientCount e.clients = 0)
    ∧ (∀ (e : AudioTickEnv) (envs : List AudioTickEnv),
        getClientCount e.clients = 0 → runAudioTicks (e :: envs) = ([], true))
    ∧ (∀ envs : List AudioTickEnv,
        (runAudioTicks envs).2 = true ↔ ∃ e ∈ envs, getClientCount e.clients = 0)
    ∧ (∀ m : WebRTCManager, MgrInv m → m.videoSending = 1 →
        (mgrStep m MgrEvent.videoExit).videoSending = 0
        ∧ (startVideoStream (mgrStep m MgrEvent.videoExit)).videoSending = 1
        ∧ (startVideoStream (mgrStep m MgrEvent.videoExit)).videoLoops
            = (mgrStep m MgrEvent.videoExit).videoLoops + 1)
    ∧ (∀ m : WebRTCManager, MgrInv m → m.audioSending = 1 →
        (mgrStep m MgrEvent.audioExit).audioSending = 0
        ∧ (startAudioStream (mgrStep m MgrEvent.audioExit)).audioSending = 1
        ∧ (startAudioStream (mgrStep m MgrEvent.audioExit)).audioLoops
            = (mgrStep m MgrEvent.audioExit).audioLoops + 1) := by
  refine ⟨?_, ?_, ?_, ?_, ?_, ?_⟩
  · intro s e envs h
    have hv := (videoTick_exit_iff s e).mpr h
    simp [runVideoTicks, hv]
  · intro s envs; exact runVideoTicks_exits_iff envs s
  · intro e envs h
    have hv := (audioTick_exit_iff e).mpr h
    simp [runAudioTicks, hv]
  · exact runAudioTicks_exits_iff
  · intro m hm h1
    obtain ⟨hv, _⟩ := hm
    rcases hv with ⟨ha, hb⟩ | ⟨ha, hb⟩
    · rw [h1] at ha; exact absurd ha (by decide)
    · refine ⟨?_, ?_, ?_⟩ <;> simp [mgrStep, startVideoStream, hb]
  · intro m hm h1
    obtain ⟨_, ha⟩ := hm
    rcases ha with ⟨ha, hb⟩ | ⟨ha, hb⟩
    · rw [h1] at ha; exact absurd ha (by decide)
    · refine ⟨?_, ?_, ?_⟩ <;> simp [mgrStep, startAudioStream, hb]

/-- concrete zero-client video tick environment. -/
def emptyTickEnv : VideoTickEnv :=
  { clients := [], readData := [], readResult := 0, screenFPS := 30,
    writeOk := fun _ => true }

/-- C2 witness: a first tick with zero clients makes both loops return, and a
manager with a video loop running reaches flag 0 on exit and respawns on the
next start. -/
theorem broadcastLoop_zero_clients_termination_witness :
    runVideoTicks { fps := 30, duration := 33333333 } [emptyTickEnv]
      = ([], true, { fps := 30, duration := 33333333 })
    ∧ runAudioTicks [{ clients := [] }] = ([], true)
    ∧ (mgrStep { videoSending := 1, audioSending := 0, videoLoops := 1, audioLoops := 0 }
        MgrEvent.videoExit).videoSending = 0 :=
  ⟨broadcastLoop_zero_clients_termination.1 _ emptyTickEnv [] (by decide),
   broadcastLoop_zero_clients_termination.2.2.1 _ [] (by decide),
   (broadcastLoop_zero_clients_termination.2.2.2.2.1
      { videoSending := 1, audioSending := 0, videoLoops := 1, audioLoops := 0 }
      ⟨Or.inr ⟨rfl, rfl⟩, Or.inl ⟨rfl, rfl⟩⟩ rfl).1⟩

/-- C3 (code-bug exhibit): in the video tick body the only registry iteration
— the fan-out `for _, client := range m.clients` at manager.go:92-94 — runs
with read-lock depth 0 and write-lock depth 0, i.e. with no form of the
registry lock held, while the `len(m.clients)` read inside `GetClientCount`
does run under the read lock (depth (1, 0)).  This contradicts the claimed
read-lock-protected fan-out; the spec's own design notes flag this
unsynchronized iteration as a latent data race. -/
theorem videoTick_fanout_unlocked :
    iterLockDepths videoTickRegEvents = [(0, 0)]
    ∧ (annotateDepths (0, 0) videoTickRegEvents).filterMap
        (fun x => if x.1 = RegEvent.readCount then some x.2 else none) = [(1, 0)]
    ∧ iterLockDepths addClientEvents = []
    ∧ iterLockDepths removeClientEvents = [] := by decide

/-- concrete video tick on which the frame rate changed to a nonzero value
but the source read failed (`result < 0` is false here, but the payload is
empty), so the body takes the `continue` path. -/
def rateChangeMissEnv : VideoTickEnv :=
  { clients := [(1, { trackId := 1 })], readData := [], readResult := 0,
    screenFPS := 60, writeOk := fun _ => true }

/-- C4 counterexample: it is not the case that every video tick (with clients
registered) polls the frame rate and, on a nonzero changed rate, resets the
ticker interval: on a tick whose read returns an empty payload the body
executes `continue` before the rate check, keeping the old fps/interval even
though `screen.FPS` is 60 ≠ 30 and nonzero. -/
theorem videoTick_rate_poll_cex :
    ¬ (∀ (s : VideoLoopState) (e : VideoTickEnv),
        getClientCount e.clients ≠ 0 → e.screenFPS ≠ 0 → e.screenFPS ≠ s.fps →
        ∃ w, videoTick s e = VideoTickResult.cont
          { fps := e.screenFPS, duration := Int.tdiv second e.screenFPS } w) := by
  intro h
  obtain ⟨w, hw⟩ := h { fps := 30, duration := Int.tdiv second 30 } rateChangeMissEnv
    (by decide) (by decide) (by decide)
  have hv : videoTick { fps := 30, duration := Int.tdiv second 30 } rateChangeMissEnv
      = VideoTickResult.cont { fps := 30, duration := Int.tdiv second 30 } [] := by
    unfold videoTick
    rw [if_neg (by decide), if_pos (by decide)]
  rw [hv] at hw
  injection hw with hs _
  have h30 : (30 : Int) = 60 := congrArg VideoLoopState.fps hs
  exact absurd h30 (by decide)

/-- C4 (amended): on every video tick that passes the zero-client check and
has a successful non-empty read, the loop polls `screen.FPS`: a nonzero rate
differing from the current one resets the ticker interval in place to
`time.Second / rate` with the loop continuing (not returning, so the sending
flag — cleared only by the deferred store on return — never toggles), while a
zero or unchanged rate keeps the current interval; on a tick whose read fails
or is empty the rate poll is skipped along with the writes. -/
theorem videoTick_rate_adaptation (s : VideoLoopState) (e : VideoTickEnv)
    (hc : getClientCount e.clients ≠ 0)
    (hr : ¬(e.readResult < 0 ∨ e.readData.length = 0)) :
    (e.screenFPS ≠ 0 → e.screenFPS ≠ s.fps →
      videoTick s e = VideoTickResult.cont
        { fps := e.screenFPS, duration := Int.tdiv second e.screenFPS }
        (e.clients.map (fun c =>
          (c.1, { data := e.readData, duration := s.duration }, e.writeOk c.1))))
    ∧ ((e.screenFPS = 0 ∨ e.screenFPS = s.fps) →
      videoTick s e = VideoTickResult.cont s
        (e.clients.map (fun c =>
          (c.1, { data := e.readData, duration := s.duration }, e.writeOk c.1)))) := by
  constructor
  · intro h0 hne
    unfold videoTick
    rw [if_neg hc, if_neg hr, if_pos ⟨hne, h0⟩]
  · intro h
    unfold videoTick
    rw [if_neg hc, if_neg hr, if_neg]
    rcases h with h | h
    · exact fun hcond => hcond.2 h
    · exact fun hcond => hcond.1 h

/-- concrete video tick with one client, a good read and the rate changed to 60. -/
def rateChangeGoodEnv : VideoTickEnv :=
  { clients := [(1, { trackId := 1 })], readData := [7, 8], readResult := 0,
    screenFPS := 60, writeOk := fun _ => true }

/-- C4 witness: a good tick at rate 60 over current rate 30 continues with
the interval reset to `second / 60` and the sample still carrying the old
tick duration. -/
theorem videoTick_rate_adaptation_witness :
    videoTick { fps := 30, duration := 33333333 } rateChangeGoodEnv
      = VideoTickResult.cont { fps := 60, duration := Int.tdiv second 60 }
          [(1, { data := [7, 8], duration := 33333333 }, true)] :=
  (videoTick_rate_adaptation { fps := 30, duration := 33333333 } rateChangeGoodEnv
    (by decide) (by decide)).1 (by decide) (by decide)

/-- three registered sessions. -/
def threeClients : Registry :=
  [(1, { trackId := 1 }), (2, { trackId := 2 }), (3, { trackId := 3 })]

/-- C5 counterexample: with three registered sessions the audio loop run for
the 50 ticks of one second performs no track write at all — the capture and
write block of `sendAudioStream` is commented out — so session 1's track
receives 0 writes, not 50. -/
theorem sendAudioStream_steady_cex :
    getClientCount threeClients = 3
    ∧ (List.replicate 50 ({ clients := threeClients } : AudioTickEnv)).length = 50
    ∧ runAudioTicks (List.replicate 50 { clients := threeClients }) = ([], false)
    ∧ ((runAudioTicks (List.replicate 50 { clients := threeClients })).1.filter
        (fun w => w.1 == 1)).length ≠ 50 := by decide

/-- C5 (amended): the audio loop ticks at the fixed 20 ms cadence
(`frameDuration` is the constant `20 * time.Millisecond` and nothing ever
changes it) and, as long as every tick observes a nonzero client count, runs
through all its ticks without returning and without writing anything to any
session's audio track: audio capture is an unimplemented placeholder, so over
one second (50 ticks) each registered session receives 0 writes rather than
50 20 ms-samples. -/
theorem sendAudioStream_placeholder_no_writes (envs : List AudioTickEnv)
    (h : ∀ e ∈ envs, getClientCount e.clients ≠ 0) :
    runAudioTicks envs = ([], false) ∧ frameDuration = 20000000 := by
  refine ⟨?_, by decide⟩
  induction envs with
  | nil => simp [runAudioTicks]
  | cons e rest ih =>
    have he : getClientCount e.clients ≠ 0 := h e (by simp)
    have ha : audioTick e = AudioTickResult.cont [] := by
      unfold audioTick
      rw [if_neg he]
    have hrest : runAudioTicks rest = ([], false) := ih (fun x hx => h x (by simp [hx]))
    simp [runAudioTicks, ha, hrest]

/-- C5 witness: the 50-tick, three-session run of the audio loop. -/
theorem sendAudioStream_placeholder_no_writes_witness :
    runAudioTicks (List.replicate 50 { clients := threeClients }) = ([], false)
    ∧ frameDuration = 20000000 :=
  sendAudioStream_placeholder_no_writes (List.replicate 50 { clients := threeClients })
    (by decide)

/-- C6: on every video tick where the source read returns a negative status
code or an empty payload (with clients registered, so the zero-client return
is not taken), no sample is written to any client's track, the loop does not
return and its local state is unchanged, and the run proceeds exactly as from
the next tick — there is no synchronous retry. -/
theorem videoTick_transient_miss (s : VideoLoopState) (e : VideoTickEnv)
    (rest : List VideoTickEnv)
    (hc : getClientCount e.clients ≠ 0)
    (hm : e.readResult < 0 ∨ e.readData.length = 0) :
    videoTick s e = VideoTickResult.cont s []
    ∧ runVideoTicks s (e :: rest) = runVideoTicks s rest := by
  have h1 : videoTick s e = VideoTickResult.cont s [] := by
    unfold videoTick
    rw [if_neg hc, if_pos hm]
  exact ⟨h1, by simp [runVideoTicks, h1]⟩

/-- concrete video tick with one client and a failed read (`result = -1`). -/
def missEnv : VideoTickEnv :=
  { clients := [(1, { trackId := 1 })], readData := [9], readResult := -1,
    screenFPS := 30, writeOk := fun _ => true }

/-- C6 witness: a failed-read tick writes nothing, keeps the state and the
run continues with the remaining ticks. -/
theorem videoTick_transient_miss_witness :
    videoTick { fps := 30, duration := 33333333 } missEnv
      = VideoTickResult.cont { fps := 30, duration := 33333333 } []
    ∧ runVideoTicks { fps := 30, duration := 33333333 } [missEnv]
      = runVideoTicks { fps := 30, duration := 33333333 } [] :=
  videoTick_transient_miss { fps := 30, duration := 33333333 } missEnv []
    (by decide) (by decide)

/-- C7: on every video tick with a successful non-empty read and a nonzero
client count, the tick writes to the tracks of exactly the clients in its
registry snapshot: one write per registered client, every write carrying the
same sample (the tick's payload with the current tick duration), and no write
to a handle outside the snapshot — so a client registered only at a later
tick's snapshot receives that later tick's sample instead. -/
theorem videoTick_fanout_equiv (s : VideoLoopState) (e : VideoTickEnv)
    (hc : getClientCount e.clients ≠ 0)
    (hr : ¬(e.readResult < 0 ∨ e.readData.length = 0)) :
    ∃ s1 w, videoTick s e = VideoTickResult.cont s1 w
      ∧ w.length = getClientCount e.clients
      ∧ (∀ x ∈ w, x.2.1 = { data := e.readData, duration := s.duration })
      ∧ (∀ p ∈ e.clients,
          (p.1, ({ data := e.readData, duration := s.duration } : Sample), e.writeOk p.1) ∈ w)
      ∧ (∀ x ∈ w, ∃ c : Client, (x.1, c) ∈ e.clients) := by
  have hlen : (e.clients.map (fun c =>
      (c.1, ({ data := e.readData, duration := s.duration } : Sample), e.writeOk c.1))).length
        = getClientCount e.clients := by
    simp [getClientCount]
  have hsame : ∀ x ∈ e.clients.map (fun c =>
      (c.1, ({ data := e.readData, duration := s.duration } : Sample), e.writeOk c.1)),
      x.2.1 = { data := e.readData, duration := s.duration } := by
    intro x hx
    obtain ⟨c, _, rfl⟩ := List.mem_map.mp hx
    rfl
  have hmem : ∀ p ∈ e.clients,
      (p.1, ({ data := e.readData, duration := s.duration } : Sample), e.writeOk p.1)
        ∈ e.clients.map (fun c =>
          (c.1, ({ data := e.readData, duration := s.duration } : Sample), e.writeOk c.1)) :=
    fun p hp => List.mem_map.mpr ⟨p, hp, rfl⟩
  have hkeys : ∀ x ∈ e.clients.map (fun c =>
      (c.1, ({ data := e.readData, duration := s.duration } : Sample), e.writeOk c.1)),
      ∃ c : Client, (x.1, c) ∈ e.clients := by
    intro x hx
    obtain ⟨p, hp, rfl⟩ := List.mem_map.mp hx
    exact ⟨p.2, hp⟩
  by_cases hf : e.screenFPS ≠ s.fps ∧ e.screenFPS ≠ 0
  · refine ⟨{ fps := e.screenFPS, duration := Int.tdiv second e.screenFPS },
      e.clients.map (fun c =>
        (c.1, ({ data := e.readData, duration := s.duration } : Sample), e.writeOk c.1)),
      ?_, hlen, hsame, hmem, hkeys⟩
    unfold videoTick
    rw [if_neg hc, if_neg hr, if_pos hf]
  · refine ⟨s,
      e.clients.map (fun c =>
        (c.1, ({ data := e.readData, duration := s.duration } : Sample), e.writeOk c.1)),
      ?_, hlen, hsame, hmem, hkeys⟩
    unfold videoTick
    rw [if_neg hc, if_neg hr, if_neg hf]

/-- concrete video tick with two clients and a good read at an unchanged rate. -/
def fanoutEnv : VideoTickEnv :=
  { clients := [(1, { trackId := 1 }), (2, { trackId := 2 })], readData := [5],
    readResult := 0, screenFPS := 30, writeOk := fun _ => true }

/-- C7 witness: the two-client good tick writes the identical sample to both
registered clients and to nobody else. -/
theorem videoTick_fanout_equiv_witness :
    ∃ s1 w, videoTick { fps := 30, duration := 33333333 } fanoutEnv
        = VideoTickResult.cont s1 w
      ∧ w.length = getClientCount fanoutEnv.clients
      ∧ (∀ x ∈ w, x.2.1 = { data := fanoutEnv.readData, duration := 33333333 })
      ∧ (∀ p ∈ fanoutEnv.clients,
          (p.1, ({ data := fanoutEnv.readData, duration := 33333333 } : Sample),
            fanoutEnv.writeOk p.1) ∈ w)
      ∧ (∀ x ∈ w, ∃ c : Client, (x.1, c) ∈ fanoutEnv.clients) :=
  videoTick_fanout_equiv { fps := 30, duration := 33333333 } fanoutEnv
    (by decide) (by decide)

theorem videoTick_writeOk_eval (s : VideoLoopState) (e : VideoTickEnv) (f : Nat → Bool) :
    videoTick s { e with writeOk := f } =
      if getClientCount e.clients = 0 then VideoTickResult.exit
      else if e.readResult < 0 ∨ e.readData.length = 0 then VideoTickResult.cont s []
      else if e.screenFPS ≠ s.fps ∧ e.screenFPS ≠ 0 then
        VideoTickResult.cont { fps := e.screenFPS, duration := Int.tdiv second e.screenFPS }
          (e.clients.map (fun c => (c.1, { data := e.readData, duration := s.duration }, f c.1)))
      else
        VideoTickResult.cont s
          (e.clients.map (fun c => (c.1, { data := e.readData, duration := s.duration }, f c.1))) :=
  rfl

/-- C8: the video loop discards the outcome of every `track.writeVideo` call:
replacing the per-client write outcomes (e.g. one client's connection being
closed) changes neither whether the tick returns, nor the loop state it
continues with, nor the set of (handle, sample) writes performed — including
the writes to the remaining clients of the same tick — nor the exit flag and
final state of the remaining run; and on a good tick the write targets are
exactly all registered clients regardless of any failure among them. -/
theorem videoTick_write_failure_isolated (s : VideoLoopState) (e : VideoTickEnv)
    (f g : Nat → Bool) (rest : List VideoTickEnv) :
    ((videoTick s { e with writeOk := f }).isExit
        = (videoTick s { e with writeOk := g }).isExit)
    ∧ ((videoTick s { e with writeOk := f }).nextState s
        = (videoTick s { e with writeOk := g }).nextState s)
    ∧ ((videoTick s { e with writeOk := f }).writeTargets
        = (videoTick s { e with writeOk := g }).writeTargets)
    ∧ ((runVideoTicks s ({ e with writeOk := f } :: rest)).2
        = (runVideoTicks s ({ e with writeOk := g } :: rest)).2)
    ∧ (getClientCount e.clients ≠ 0 → ¬(e.readResult < 0 ∨ e.readData.length = 0) →
        (videoTick s { e with writeOk := f }).writeTargets
          = e.clients.map (fun c =>
              (c.1, ({ data := e.readData, duration := s.duration } : Sample)))) := by
  have hf := videoTick_writeOk_eval s e f
  have hg := videoTick_writeOk_eval s e g
  by_cases h1 : getClientCount e.clients = 0
  · rw [if_pos h1] at hf hg
    refine ⟨?_, ?_, ?_, ?_, fun hc _ => absurd h1 hc⟩ <;>
      simp [hf, hg, runVideoTicks, VideoTickResult.isExit,
        VideoTickResult.nextState, VideoTickResult.writeTargets]
  · rw [if_neg h1] at hf hg
    by_cases h2 : e.readResult < 0 ∨ e.readData.length = 0
    · rw [if_pos h2] at hf hg
      refine ⟨?_, ?_, ?_, ?_, fun _ hr => absurd h2 hr⟩ <;>
        simp [hf, hg, runVideoTicks, VideoTickResult.isExit,
          VideoTickResult.nextState, VideoTickResult.writeTargets]
    · rw [if_neg h2] at hf hg
      by_cases h3 : e.screenFPS ≠ s.fps ∧ e.screenFPS ≠ 0
      · rw [if_pos h3] at hf hg
        refine ⟨?_, ?_, ?_, ?_, fun _ _ => ?_⟩ <;>
          simp [hf, hg, runVideoTicks, VideoTickResult.isExit,
            VideoTickResult.nextState, VideoTickResult.writeTargets, List.map_map,
            Function.comp]
      · rw [if_neg h3] at hf hg
        refine ⟨?_, ?_, ?_, ?_, fun _ _ => ?_⟩ <;>
          simp [hf, hg, runVideoTicks, VideoTickResult.isExit,
            VideoTickResult.nextState, VideoTickResult.writeTargets, List.map_map,
            Function.comp]

/-- concrete two-client good tick used to exercise a failing write. -/
def isolationEnv : VideoTickEnv :=
  { clients := [(1, { trackId := 1 }), (2, { trackId := 2 })], readData := [5],
    readResult := 0, screenFPS := 30, writeOk := fun _ => true }

/-- C8 witness: with client 1's write failing, the tick still targets both
registered clients with the tick's sample. -/
theorem videoTick_write_failure_isolated_witness :
    (videoTick { fps := 30, duration := 33333333 }
        { isolationEnv with writeOk := fun n => n != 1 }).writeTargets
      = isolationEnv.clients.map (fun c =>
          (c.1, ({ data := isolationEnv.readData, duration := 33333333 } : Sample))) :=
  (videoTick_write_failure_isolated { fps := 30, duration := 33333333 } isolationEnv
    (fun n => n != 1) (fun _ => true) []).2.2.2.2 (by decide) (by decide)

/-- C9: for a handle not present in the registry, `RemoveClient` leaves the
registry — and hence the client count — unchanged (and, returning nothing, it
reports no error); removing the same handle twice yields the same registry as
removing it once. -/
theorem removeClient_absent_noop_idempotent :
    (∀ (reg : Registry) (ws : Nat), ws ∉ reg.map Prod.fst →
        removeClient reg ws = reg
        ∧ getClientCount (removeClient reg ws) = getClientCount reg)
    ∧ (∀ (reg : Registry) (ws : Nat),
        removeClient (removeClient reg ws) ws = removeClient reg ws) := by
  constructor
  · intro reg ws h
    have heq : removeClient reg ws = reg := by
      apply List.filter_eq_self.mpr
      intro p hp
      have hne : p.1 ≠ ws := by
        intro hcontra
        exact h (hcontra ▸ List.mem_map_of_mem Prod.fst hp)
      simpa using hne
    exact ⟨heq, by rw [heq]⟩
  · intro reg ws
    apply List.filter_eq_self.mpr
    intro p hp
    exact (List.mem_filter.mp hp).2

/-- C9 witness: removing the absent handle 1 from a one-entry registry. -/
theorem removeClient_absent_witness :
    removeClient [(2, { trackId := 2 })] 1 = [(2, { trackId := 2 })]
    ∧ removeClient (removeClient [(2, { trackId := 2 })] 1) 1
        = removeClient [(2, { trackId := 2 })] 1 :=
  ⟨(removeClient_absent_noop_idempotent.1 [(2, { trackId := 2 })] 1 (by decide)).1,
   removeClient_absent_noop_idempotent.2 [(2, { trackId := 2 })] 1⟩

/-- C10: `sendVideoStream` computes its initial tick interval as
`time.Second / time.Duration(fps)` from the rate read once at entry, with no
zero guard there: the setup is well-defined only when that rate is positive
(a zero rate makes the division panic), while the `screen.FPS != 0` check in
the loop body guards only the mid-loop update — a tick observing a zero rate
always continues with its state unchanged. -/
theorem sendVideoStream_entry_rate_precondition :
    (∀ fps : Int, initVideoSetup fps ≠ none → 0 < fps)
    ∧ initVideoSetup 0 = none
    ∧ (∀ fps : Int, 0 < fps → fps ≤ second →
        initVideoSetup fps = some { fps := fps, duration := Int.tdiv second fps })
    ∧ (∀ (s : VideoLoopState) (e : VideoTickEnv) (s1 : VideoLoopState)
        (w : List (Nat × Sample × Bool)), e.screenFPS = 0 →
        videoTick s e = VideoTickResult.cont s1 w → s1 = s) := by
  refine ⟨?_, by decide, ?_, ?_⟩
  · intro fps h
    by_contra hle
    push_neg at hle
    apply h
    unfold initVideoSetup
    rcases lt_or_eq_of_le hle with hlt | heq
    · have h2 : 0 ≤ Int.tdiv second (-fps) := Int.tdiv_nonneg (by decide) (by omega)
      have h3 : Int.tdiv second (-(-fps)) = -(Int.tdiv second (-fps)) := Int.tdiv_neg ..
      rw [neg_neg] at h3
      rw [if_neg (by omega), if_pos (by omega)]
    · rw [if_pos heq]
  · intro fps h1 h2
    have hd : Int.tdiv second fps = second / fps := Int.tdiv_eq_ediv (by decide) (by omega)
    have hpos : 0 < second / fps := by
      have hone : (1 : Int) ≤ second / fps := by
        rw [Int.le_ediv_iff_mul_le h1]
        omega
      omega
    unfold initVideoSetup
    rw [if_neg (by omega), if_neg (by omega)]
  · intro s e s1 w h0 hvt
    unfold videoTick at hvt
    by_cases h1 : getClientCount e.clients = 0
    · rw [if_pos h1] at hvt
      exact absurd hvt (by simp)
    · rw [if_neg h1] at hvt
      by_cases h2 : e.readResult < 0 ∨ e.readData.length = 0
      · rw [if_pos h2] at hvt
        injection hvt with hs _
        exact hs.symm
      · rw [if_neg h2, if_neg (fun hcond => hcond.2 h0)] at hvt
        injection hvt with hs _
        exact hs.symm

/-- concrete good tick observing a zero `screen.FPS`. -/
def zeroRateEnv : VideoTickEnv :=
  { clients := [(1, { trackId := 1 })], readData := [5], readResult := 0,
    screenFPS := 0, writeOk := fun _ => true }

/-- C10 witness: rate 30 is a valid entry rate, rate 0 at entry panics, and a
zero mid-loop rate leaves the loop state untouched. -/
theorem sendVideoStream_entry_rate_precondition_witness :
    (0 : Int) < 30
    ∧ initVideoSetup 30 = some { fps := 30, duration := Int.tdiv second 30 }
    ∧ ({ fps := 30, duration := 33333333 } : VideoLoopState)
        = { fps := 30, duration := 33333333 } :=
  ⟨sendVideoStream_entry_rate_precondition.1 30 (by decide),
   sendVideoStream_entry_rate_precondition.2.2.1 30 (by decide) (by decide),
   sendVideoStream_entry_rate_precondition.2.2.2 { fps := 30, duration := 33333333 }
     zeroRateEnv { fps := 30, duration := 33333333 }
     [(1, { data := [5], duration := 33333333 }, true)] rfl (by decide)⟩

end NanoKVM
